import Mathlib

/-!
Shallow embedding of `book_manager/src/main.rs`: an axum HTTP service with two
routes, `GET /health` (liveness, 204) and `GET /books` (list all rows of the
`books` table as JSON).  Pure data is embedded as Lean structures; the effectful
parts (pool acquisition, the SQL query, environment lookup, connect, bind) are
embedded by passing explicit oracles for the outcomes of the external calls,
with a counter for acquisition attempts and an event trace for startup.  A Rust
`unwrap` panic is modelled as `none` / the `panicked` outcome.
-/

/-- JSON values, the target of serde_json serialization. -/
inductive JsonVal where
  | str : String → JsonVal
  | num : Int → JsonVal
  | arr : List JsonVal → JsonVal
  | obj : List (String × JsonVal) → JsonVal

/-- Looks a field up in a JSON object (`none` on non-objects). -/
def JsonVal.getField : JsonVal → String → Option JsonVal
  | .obj fields, name => fields.lookup name
  | _, _ => none

/-- The key list of a JSON object, in serialization order. -/
def JsonVal.objKeys : JsonVal → Option (List String)
  | .obj fields => some (fields.map Prod.fst)
  | _ => none

/-- `chrono::NaiveDateTime`: a timezone-naive calendar date and time of day. -/
structure NaiveDateTime where
  year : Int
  month : Nat
  day : Nat
  hour : Nat
  minute : Nat
  second : Nat
deriving DecidableEq, Repr

/-- Zero-pads a number to two digits, as in chrono's date formatting. -/
def pad2 (n : Nat) : String :=
  if n < 10 then "0" ++ toString n else toString n

/-- The textual (ISO-8601-like, timezone-naive) form chrono's serde support
uses when serializing a `NaiveDateTime`. -/
def NaiveDateTime.format (t : NaiveDateTime) : String :=
  toString t.year ++ "-" ++ pad2 t.month ++ "-" ++ pad2 t.day ++ "T"
    ++ pad2 t.hour ++ ":" ++ pad2 t.minute ++ ":" ++ pad2 t.second

/-- The `Book` struct of `main.rs`: one row of the `books` table. -/
structure Book where
  id : Int
  title : String
  author : String
  publisher : String
  isbn : String
  comment : String
  created_at : NaiveDateTime
  updated_at : NaiveDateTime
deriving DecidableEq, Repr

/-- Serde's derived `Serialize` for `Book`: a JSON object with one member per
field, keys in declaration order; `i64` becomes a JSON number, `String` a JSON
string, and `NaiveDateTime` its naive textual form. -/
def serializeBook (b : Book) : JsonVal :=
  .obj [("id", .num b.id), ("title", .str b.title), ("author", .str b.author),
        ("publisher", .str b.publisher), ("isbn", .str b.isbn),
        ("comment", .str b.comment),
        ("created_at", .str b.created_at.format),
        ("updated_at", .str b.updated_at.format)]

/-- The `BookList` newtype struct of `main.rs`, `struct BookList(Vec<Book>)`. -/
structure BookList where
  books : List Book
deriving DecidableEq, Repr

/-- Serde's derived `Serialize` for the one-field tuple struct `BookList` calls
`serialize_newtype_struct`, which serde_json serializes transparently as the
inner value: the JSON is the bare array of serialized books. -/
def serializeBookList (l : BookList) : JsonVal :=
  .arr (l.books.map serializeBook)

/-- The body shape §6 of the specification describes for `GET /books`: the
array of records wrapped in an object keyed `"0"`.  Stated from the spec's
words, to be compared with `serializeBookList`. -/
def specBookListShape (l : BookList) : JsonVal :=
  .obj [("0", .arr (l.books.map serializeBook))]

/-- HTTP status codes, by numeric value as in `axum::http::StatusCode`. -/
abbrev StatusCode := Nat

def StatusCode.OK : StatusCode := 200

def StatusCode.NO_CONTENT : StatusCode := 204

def StatusCode.INTERNAL_SERVER_ERROR : StatusCode := 500

/-- An HTTP response as observed by the caller: a status and an optional JSON
body (`none` = empty body). -/
structure Response where
  status : StatusCode
  body : Option JsonVal

/-- Axum's `IntoResponse` for a bare `StatusCode`: that status, empty body. -/
def statusResponse (s : StatusCode) : Response := ⟨s, none⟩

/-- Axum's `IntoResponse` for `Result<Json<T>, StatusCode>`: `Ok(Json(v))`
responds `200 OK` with the JSON body, `Err(status)` responds with that status
and an empty body. -/
def resultToResponse : Except StatusCode JsonVal → Response
  | .ok j => ⟨StatusCode.OK, some j⟩
  | .error st => ⟨st, none⟩

/-- The `health_check` handler: returns `StatusCode::NO_CONTENT` (204),
unconditionally — it takes no input and touches nothing. -/
def health_check : Response := statusResponse StatusCode.NO_CONTENT

/-- A pooled MySQL connection handle. -/
structure Conn where
  connId : Nat
deriving DecidableEq, Repr

/-- Failure of `Pool::acquire`. -/
inductive AcquireError where
  | acquireFailed
deriving DecidableEq, Repr

/-- Failure of query execution or row mapping in `sqlx::query_as!`. -/
inductive QueryError where
  | queryFailed
deriving DecidableEq, Repr

/-- Oracles for the external calls the list handler makes: the outcome of the
k-th `acquire` call on the pool, and the outcome of running
`select * from books` on a given connection (row mapping included: `query_as!`
either yields the fully mapped `Vec<Book>` or an error). -/
structure DbWorld where
  acqResult : Nat → Except AcquireError Conn
  queryResult : Conn → Except QueryError (List Book)

/-- Per-run state: how many `acquire` calls have been made on the pool. -/
structure RunState where
  acquireCalls : Nat
deriving DecidableEq, Repr

/-- `db.acquire()`: consumes one acquisition attempt, returning its outcome. -/
def Pool.acquire (w : DbWorld) (s : RunState) :
    Except AcquireError Conn × RunState :=
  (w.acqResult s.acquireCalls, ⟨s.acquireCalls + 1⟩)

/-- `Result::is_err`. -/
def Except.is_err : Except ε α → Bool
  | .error _ => true
  | .ok _ => false

/-- `Result::unwrap`, with the panic branch made explicit as `none`. -/
def unwrapOpt : Except ε α → Option α
  | .ok a => some a
  | .error _ => none

/-- The `book_list` handler of `main.rs`: acquire one connection (returning
`Err(500)` when `conn.is_err()`), then `unwrap` the connection, run the fixed
query, and either wrap the rows as `Json(BookList(books))` or map the error to
`Err(500)`.  The outer `none` models a panic of the `unwrap`. -/
def book_list (w : DbWorld) (s : RunState) :
    Option (Except StatusCode JsonVal) × RunState :=
  let acq := Pool.acquire w s
  let conn := acq.1
  let s1 := acq.2
  if conn.is_err then
    (some (Except.error StatusCode.INTERNAL_SERVER_ERROR), s1)
  else
    match unwrapOpt conn with
    | none => (none, s1)
    | some c =>
      match w.queryResult c with
      | Except.ok books =>
          (some (Except.ok (serializeBookList ⟨books⟩)), s1)
      | Except.error _ =>
          (some (Except.error StatusCode.INTERNAL_SERVER_ERROR), s1)

/-- The caller-visible response of the `book_list` handler (`none` = panic). -/
def book_list_response (w : DbWorld) (s : RunState) :
    Option Response × RunState :=
  ((book_list w s).1.map resultToResponse, (book_list w s).2)

/-- The `sqlx::MySqlPool` handle attached to the router. -/
structure MySqlPool where
  poolId : Nat
deriving DecidableEq, Repr

/-- HTTP methods used by the router. -/
inductive Method where
  | GET
  | POST
deriving DecidableEq, Repr

/-- Identifiers of the two handler functions registered on the router. -/
inductive HandlerId where
  | healthCheck
  | bookList
deriving DecidableEq, Repr

/-- The axum `Router`, reduced to what this service configures: the list of
(path, method, handler) routes in registration order, and the pool attached by
the `Extension` layer. -/
structure Router where
  routes : List (String × Method × HandlerId)
  layerExt : Option MySqlPool
deriving DecidableEq, Repr

/-- `Router::new()`. -/
def Router.new : Router := ⟨[], none⟩

/-- `Router::route(path, get(handler))`. -/
def Router.route (r : Router) (path : String) (m : Method) (h : HandlerId) :
    Router :=
  { r with routes := r.routes ++ [(path, m, h)] }

/-- `Router::layer(Extension(Arc::new(pool)))`. -/
def Router.layer (r : Router) (pool : MySqlPool) : Router :=
  { r with layerExt := some pool }

/-- The router built in `main`: `/health` and `/books` under GET, then the
pool layer. -/
def makeApp (pool : MySqlPool) : Router :=
  ((Router.new.route "/health" Method.GET HandlerId.healthCheck).route
      "/books" Method.GET HandlerId.bookList).layer pool

/-- `SocketAddr::from(([a,b,c,d], port))`. -/
structure SocketAddr where
  octets : List Nat
  port : Nat
deriving DecidableEq, Repr

/-- The fixed address `main` binds: 127.0.0.1:3000. -/
def serverAddr : SocketAddr := ⟨[127, 0, 0, 1], 3000⟩

/-- Failure of `MySqlPool::connect`. -/
inductive ConnectError where
  | connectFailed
deriving DecidableEq, Repr

/-- Failure of binding or serving on the socket. -/
inductive BindError where
  | bindFailed
deriving DecidableEq, Repr

/-- Externally observable startup effects of `main`, in order. -/
inductive StartupEvent where
  | readEnv : String → StartupEvent
  | connect : String → StartupEvent
  | bind : SocketAddr → StartupEvent
  | serve : Router → StartupEvent
deriving DecidableEq, Repr

/-- How a run of `main` ends: a panic of one of its `unwrap`s (terminating the
process), or reaching `serve` (running indefinitely). -/
inductive MainOutcome where
  | panicked
  | serving
deriving DecidableEq, Repr

/-- Oracles for the external calls of `main`: the process environment, pool
establishment, and binding-and-serving on an address. -/
structure MainWorld where
  envVar : String → Option String
  connect : String → Except ConnectError MySqlPool
  bindServe : SocketAddr → Except BindError Unit

/-- The `main` function of `main.rs` (named `rustMain` here since Lean reserves `main`): read `DATABASE_URL` (`unwrap`), connect
the pool (`unwrap`), build the router, bind 127.0.0.1:3000 and serve
(`unwrap`).  Returns the outcome together with the trace of startup effects
performed before the run ended. -/
def rustMain (w : MainWorld) : MainOutcome × List StartupEvent :=
  match w.envVar "DATABASE_URL" with
  | none => (MainOutcome.panicked, [StartupEvent.readEnv "DATABASE_URL"])
  | some url =>
    match w.connect url with
    | Except.error _ =>
        (MainOutcome.panicked,
         [StartupEvent.readEnv "DATABASE_URL", StartupEvent.connect url])
    | Except.ok pool =>
      let app := makeApp pool
      match w.bindServe serverAddr with
      | Except.error _ =>
          (MainOutcome.panicked,
           [StartupEvent.readEnv "DATABASE_URL", StartupEvent.connect url,
            StartupEvent.bind serverAddr])
      | Except.ok _ =>
          (MainOutcome.serving,
           [StartupEvent.readEnv "DATABASE_URL", StartupEvent.connect url,
            StartupEvent.bind serverAddr, StartupEvent.serve app])

/-! Concrete sample inputs used by witnesses and counterexamples. -/

/-- A sample timestamp. -/
def sampleTime : NaiveDateTime := ⟨2024, 1, 2, 3, 4, 5⟩

/-- A sample row of the `books` table. -/
def sampleBook : Book :=
  ⟨1, "t", "a", "p", "i", "c", sampleTime, sampleTime⟩

/-- A world where acquisition succeeds and the table is empty. -/
def wOkEmpty : DbWorld :=
  ⟨fun _ => Except.ok ⟨0⟩, fun _ => Except.ok []⟩

/-- A world where acquisition succeeds and the table has one row. -/
def wOkOne : DbWorld :=
  ⟨fun _ => Except.ok ⟨0⟩, fun _ => Except.ok [sampleBook]⟩

/-- A world where every acquisition fails. -/
def wAcqFail : DbWorld :=
  ⟨fun _ => Except.error AcquireError.acquireFailed, fun _ => Except.ok []⟩

/-- A world where acquisition succeeds but the query fails. -/
def wQueryFail : DbWorld :=
  ⟨fun _ => Except.ok ⟨0⟩, fun _ => Except.error QueryError.queryFailed⟩

/-- A startup world with no `DATABASE_URL` in the environment. -/
def mwNoEnv : MainWorld :=
  ⟨fun _ => none, fun _ => Except.error ConnectError.connectFailed,
   fun _ => Except.ok ()⟩

/-- A startup world where the environment is set but connecting fails. -/
def mwConnFail : MainWorld :=
  ⟨fun _ => some "mysql://localhost/books",
   fun _ => Except.error ConnectError.connectFailed, fun _ => Except.ok ()⟩

/-- A startup world where startup succeeds up to binding, which fails. -/
def mwBindFail : MainWorld :=
  ⟨fun _ => some "mysql://localhost/books", fun _ => Except.ok ⟨0⟩,
   fun _ => Except.error BindError.bindFailed⟩

/-! Helper lemmas about the handler runs. -/

/-- On a successful acquisition and query, `book_list` returns the serialized
array of the returned rows and has made exactly one more acquire call. -/
theorem book_list_ok (w : DbWorld) (s : RunState) (c : Conn)
    (books : List Book)
    (hacq : w.acqResult s.acquireCalls = Except.ok c)
    (hq : w.queryResult c = Except.ok books) :
    book_list w s =
      (some (Except.ok (JsonVal.arr (books.map serializeBook))),
       ⟨s.acquireCalls + 1⟩) := by
  simp [book_list, Pool.acquire, hacq, Except.is_err, unwrapOpt, hq,
    serializeBookList]

/-- On acquisition failure, `book_list` returns `Err(500)`. -/
theorem book_list_acqFail (w : DbWorld) (s : RunState)
    (hacq : (w.acqResult s.acquireCalls).is_err = true) :
    book_list w s =
      (some (Except.error StatusCode.INTERNAL_SERVER_ERROR),
       ⟨s.acquireCalls + 1⟩) := by
  simp [book_list, Pool.acquire, hacq]

/-- On acquisition success followed by query failure, `book_list` returns
`Err(500)`. -/
theorem book_list_queryFail (w : DbWorld) (s : RunState) (c : Conn)
    (hacq : w.acqResult s.acquireCalls = Except.ok c)
    (hq : (w.queryResult c).is_err = true) :
    book_list w s =
      (some (Except.error StatusCode.INTERNAL_SERVER_ERROR),
       ⟨s.acquireCalls + 1⟩) := by
  cases hqr : w.queryResult c with
  | ok books => rw [hqr] at hq; simp [Except.is_err] at hq
  | error e =>
    simp [book_list, Pool.acquire, hacq, Except.is_err, unwrapOpt, hqr]

/-- Every run of `book_list` ends with exactly one more acquire call made. -/
theorem book_list_state (w : DbWorld) (s : RunState) :
    (book_list w s).2 = ⟨s.acquireCalls + 1⟩ := by
  cases hr : w.acqResult s.acquireCalls with
  | error e => simp [book_list, Pool.acquire, hr, Except.is_err]
  | ok c =>
    cases hq : w.queryResult c with
    | ok books =>
      simp [book_list, Pool.acquire, hr, Except.is_err, unwrapOpt, hq]
    | error e =>
      simp [book_list, Pool.acquire, hr, Except.is_err, unwrapOpt, hq]

/-! Claim theorems. -/

/-- C1 counterexample: with one row and a fully successful run, the body of
`GET /books` is not the object `\x7b"0": [...]\x7d` the specification
describes — `BookList` is a serde newtype and serializes as the bare array. -/
theorem C1_counterexample :
    (book_list_response wOkOne ⟨0⟩).1 ≠
      some ⟨StatusCode.OK, some (specBookListShape ⟨[sampleBook]⟩)⟩ := by
  intro h
  have h1 : (book_list_response wOkOne ⟨0⟩).1 =
      some ⟨StatusCode.OK, some (JsonVal.arr [serializeBook sampleBook])⟩ :=
    rfl
  rw [h1] at h
  simp [specBookListShape] at h

/-- C1 (amended): on a successful run, `GET /books` responds `200 OK` with a
JSON body that is the bare array of record objects (the `BookList` newtype
serializes transparently as its inner vector), and each record's two
timestamps are serialized as naive date-time strings. -/
theorem C1_list_ok_response (w : DbWorld) (s : RunState) (c : Conn)
    (books : List Book)
    (hacq : w.acqResult s.acquireCalls = Except.ok c)
    (hq : w.queryResult c = Except.ok books) :
    (book_list_response w s).1 =
      some ⟨StatusCode.OK, some (JsonVal.arr (books.map serializeBook))⟩ ∧
    ∀ b ∈ books,
      (serializeBook b).getField "created_at" =
        some (JsonVal.str b.created_at.format) ∧
      (serializeBook b).getField "updated_at" =
        some (JsonVal.str b.updated_at.format) := by
  refine ⟨?_, ?_⟩
  · simp [book_list_response, book_list_ok w s c books hacq hq,
      resultToResponse]
  · intro b _
    exact ⟨rfl, rfl⟩

/-- C1 witness: the amended statement evaluated at a one-row table. -/
theorem C1_witness :
    (book_list_response wOkOne ⟨0⟩).1 =
      some ⟨StatusCode.OK,
            some (JsonVal.arr ([sampleBook].map serializeBook))⟩ :=
  (C1_list_ok_response wOkOne ⟨0⟩ ⟨0⟩ [sampleBook] rfl rfl).1

/-- C2: a successful run against a table with N rows yields a JSON array of
exactly N objects, each of which carries the eight documented fields, keys in
order, values copied verbatim from the row (id as a number, text fields as
strings, timestamps as their textual form). -/
theorem C2_row_mapping (w : DbWorld) (s : RunState) (c : Conn)
    (books : List Book)
    (hacq : w.acqResult s.acquireCalls = Except.ok c)
    (hq : w.queryResult c = Except.ok books) :
    (book_list_response w s).1 =
      some ⟨StatusCode.OK, some (JsonVal.arr (books.map serializeBook))⟩ ∧
    (books.map serializeBook).length = books.length ∧
    ∀ b ∈ books,
      (serializeBook b).objKeys =
        some ["id", "title", "author", "publisher", "isbn", "comment",
              "created_at", "updated_at"] ∧
      (serializeBook b).getField "id" = some (JsonVal.num b.id) ∧
      (serializeBook b).getField "title" = some (JsonVal.str b.title) ∧
      (serializeBook b).getField "author" = some (JsonVal.str b.author) ∧
      (serializeBook b).getField "publisher" =
        some (JsonVal.str b.publisher) ∧
      (serializeBook b).getField "isbn" = some (JsonVal.str b.isbn) ∧
      (serializeBook b).getField "comment" = some (JsonVal.str b.comment) ∧
      (serializeBook b).getField "created_at" =
        some (JsonVal.str b.created_at.format) ∧
      (serializeBook b).getField "updated_at" =
        some (JsonVal.str b.updated_at.format) := by
  refine ⟨?_, List.length_map _ _, ?_⟩
  · simp [book_list_response, book_list_ok w s c books hacq hq,
      resultToResponse]
  · intro b _
    exact ⟨rfl, rfl, rfl, rfl, rfl, rfl, rfl, rfl, rfl⟩

/-- C2 witness: the statement evaluated at a one-row table. -/
theorem C2_witness :
    (book_list_response wOkOne ⟨0⟩).1 =
      some ⟨StatusCode.OK,
            some (JsonVal.arr ([sampleBook].map serializeBook))⟩ ∧
    ([sampleBook].map serializeBook).length = [sampleBook].length ∧
    (serializeBook sampleBook).objKeys =
      some ["id", "title", "author", "publisher", "isbn", "comment",
            "created_at", "updated_at"] :=
  ⟨(C2_row_mapping wOkOne ⟨0⟩ ⟨0⟩ [sampleBook] rfl rfl).1,
   (C2_row_mapping wOkOne ⟨0⟩ ⟨0⟩ [sampleBook] rfl rfl).2.1,
   ((C2_row_mapping wOkOne ⟨0⟩ ⟨0⟩ [sampleBook] rfl rfl).2.2 sampleBook
      (List.mem_singleton.mpr rfl)).1⟩

/-- C3: every run of the list handler makes exactly one acquisition attempt,
and an acquisition failure and a query failure both produce the identical
response — status 500, empty body — so the caller cannot tell them apart. -/
theorem C3_single_attempt_uniform_500 (w : DbWorld) (s : RunState) :
    (book_list w s).2.acquireCalls = s.acquireCalls + 1 ∧
    ((w.acqResult s.acquireCalls).is_err = true →
      (book_list_response w s).1 =
        some ⟨StatusCode.INTERNAL_SERVER_ERROR, none⟩) ∧
    (∀ c, w.acqResult s.acquireCalls = Except.ok c →
      (w.queryResult c).is_err = true →
      (book_list_response w s).1 =
        some ⟨StatusCode.INTERNAL_SERVER_ERROR, none⟩) := by
  refine ⟨by rw [book_list_state], ?_, ?_⟩
  · intro h
    simp [book_list_response, book_list_acqFail w s h, resultToResponse]
  · intro c hc hq
    simp [book_list_response, book_list_queryFail w s c hc hq,
      resultToResponse]

/-- C3 witness: both failure kinds evaluated concretely yield the same bare
500 response, and one acquire call is made. -/
theorem C3_witness :
    (book_list_response wAcqFail ⟨0⟩).1 =
      some ⟨StatusCode.INTERNAL_SERVER_ERROR, none⟩ ∧
    (book_list_response wQueryFail ⟨0⟩).1 =
      some ⟨StatusCode.INTERNAL_SERVER_ERROR, none⟩ ∧
    (book_list wAcqFail ⟨0⟩).2.acquireCalls = 0 + 1 :=
  ⟨(C3_single_attempt_uniform_500 wAcqFail ⟨0⟩).2.1 rfl,
   (C3_single_attempt_uniform_500 wQueryFail ⟨0⟩).2.2 ⟨0⟩ rfl rfl,
   (C3_single_attempt_uniform_500 wAcqFail ⟨0⟩).1⟩

/-- C4: the health handler returns status 204 with an empty body,
unconditionally — it is a constant with no failure path and no inputs,
hence independent of any database or pool state. -/
theorem C4_health_no_content :
    health_check.status = 204 ∧ health_check.body = none :=
  ⟨rfl, rfl⟩

/-- C5: when acquisition and query both succeed on an empty table, the
response is `200 OK` with an empty JSON array — not an error. -/
theorem C5_empty_table_ok (w : DbWorld) (s : RunState) (c : Conn)
    (hacq : w.acqResult s.acquireCalls = Except.ok c)
    (hq : w.queryResult c = Except.ok []) :
    (book_list_response w s).1 =
      some ⟨StatusCode.OK, some (JsonVal.arr [])⟩ := by
  simp [book_list_response, book_list_ok w s c [] hacq hq, resultToResponse]

/-- C5 witness: the statement evaluated at a concrete empty-table world. -/
theorem C5_witness :
    (book_list_response wOkEmpty ⟨0⟩).1 =
      some ⟨StatusCode.OK, some (JsonVal.arr [])⟩ :=
  C5_empty_table_ok wOkEmpty ⟨0⟩ ⟨0⟩ rfl rfl

/-- C6: if `DATABASE_URL` is absent, or present but pool establishment fails,
startup panics (terminating the process) and the trace contains no bind and
no serve event — no listener is ever bound. -/
theorem C6_fail_fast (w : MainWorld)
    (h : w.envVar "DATABASE_URL" = none ∨
         ∃ url, w.envVar "DATABASE_URL" = some url ∧
           (w.connect url).is_err = true) :
    (rustMain w).1 = MainOutcome.panicked ∧
    (∀ a, StartupEvent.bind a ∉ (rustMain w).2) ∧
    (∀ r, StartupEvent.serve r ∉ (rustMain w).2) := by
  rcases h with h | ⟨url, hu, hc⟩
  · simp [rustMain, h]
  · cases hcr : w.connect url with
    | ok p => rw [hcr] at hc; simp [Except.is_err] at hc
    | error e => simp [rustMain, hu, hcr]

/-- C6 witness: a missing environment variable and a failing connect, each at
a concrete startup world. -/
theorem C6_witness :
    ((rustMain mwNoEnv).1 = MainOutcome.panicked ∧
      StartupEvent.bind serverAddr ∉ (rustMain mwNoEnv).2) ∧
    (rustMain mwConnFail).1 = MainOutcome.panicked :=
  ⟨⟨(C6_fail_fast mwNoEnv (Or.inl rfl)).1,
    (C6_fail_fast mwNoEnv (Or.inl rfl)).2.1 serverAddr⟩,
   (C6_fail_fast mwConnFail
      (Or.inr ⟨"mysql://localhost/books", rfl, rfl⟩)).1⟩

/-- C7: the successful response body is a deterministic function of the rows
the query returns: runs whose query results agree up to order produce record
arrays that agree up to order, and runs whose query results are equal produce
identical bodies. -/
theorem C7_deterministic_per_rows (w₁ w₂ : DbWorld) (s₁ s₂ : RunState)
    (c₁ c₂ : Conn) (rows₁ rows₂ : List Book)
    (hacq₁ : w₁.acqResult s₁.acquireCalls = Except.ok c₁)
    (hq₁ : w₁.queryResult c₁ = Except.ok rows₁)
    (hacq₂ : w₂.acqResult s₂.acquireCalls = Except.ok c₂)
    (hq₂ : w₂.queryResult c₂ = Except.ok rows₂)
    (hperm : rows₁.Perm rows₂) :
    ∃ l₁ l₂,
      (book_list_response w₁ s₁).1 =
        some ⟨StatusCode.OK, some (JsonVal.arr l₁)⟩ ∧
      (book_list_response w₂ s₂).1 =
        some ⟨StatusCode.OK, some (JsonVal.arr l₂)⟩ ∧
      l₁.Perm l₂ ∧ (rows₁ = rows₂ → l₁ = l₂) := by
  refine ⟨rows₁.map serializeBook, rows₂.map serializeBook, ?_, ?_, ?_, ?_⟩
  · simp [book_list_response, book_list_ok w₁ s₁ c₁ rows₁ hacq₁ hq₁,
      resultToResponse]
  · simp [book_list_response, book_list_ok w₂ s₂ c₂ rows₂ hacq₂ hq₂,
      resultToResponse]
  · exact hperm.map serializeBook
  · intro h; rw [h]

/-- C7 witness: two runs against the same one-row state yield permutable
(here: identical) record arrays. -/
theorem C7_witness :
    ∃ l₁ l₂,
      (book_list_response wOkOne ⟨0⟩).1 =
        some ⟨StatusCode.OK, some (JsonVal.arr l₁)⟩ ∧
      (book_list_response wOkOne ⟨1⟩).1 =
        some ⟨StatusCode.OK, some (JsonVal.arr l₂)⟩ ∧
      l₁.Perm l₂ ∧ ([sampleBook] = [sampleBook] → l₁ = l₂) :=
  C7_deterministic_per_rows wOkOne wOkOne ⟨0⟩ ⟨1⟩ ⟨0⟩ ⟨0⟩
    [sampleBook] [sampleBook] rfl rfl rfl rfl (List.Perm.refl _)

/-- C8: every bind event in any startup trace targets exactly 127.0.0.1:3000
(no configuration can change it), and a bind/serve failure after a successful
connect panics the process. -/
theorem C8_fixed_bind (w : MainWorld) :
    serverAddr = ⟨[127, 0, 0, 1], 3000⟩ ∧
    (∀ a, StartupEvent.bind a ∈ (rustMain w).2 → a = serverAddr) ∧
    (∀ url pool, w.envVar "DATABASE_URL" = some url →
      w.connect url = Except.ok pool →
      (w.bindServe serverAddr).is_err = true →
      (rustMain w).1 = MainOutcome.panicked) := by
  refine ⟨rfl, ?_, ?_⟩
  · intro a ha
    cases he : w.envVar "DATABASE_URL" with
    | none => simp [rustMain, he] at ha
    | some url =>
      cases hc : w.connect url with
      | error e => simp [rustMain, he, hc] at ha
      | ok pool =>
        cases hb : w.bindServe serverAddr with
        | error e =>
          simp [rustMain, he, hc, hb] at ha
          exact ha
        | ok u =>
          simp [rustMain, he, hc, hb] at ha
          exact ha
  · intro url pool hu hc hb
    cases hbr : w.bindServe serverAddr with
    | ok u => rw [hbr] at hb; simp [Except.is_err] at hb
    | error e => simp [rustMain, hu, hc, hbr]

/-- C8 witness: a concrete world whose bind fails panics, and its address is
the fixed one. -/
theorem C8_witness :
    serverAddr = ⟨[127, 0, 0, 1], 3000⟩ ∧
    (rustMain mwBindFail).1 = MainOutcome.panicked :=
  ⟨(C8_fixed_bind mwBindFail).1,
   (C8_fixed_bind mwBindFail).2.2 "mysql://localhost/books" ⟨0⟩ rfl rfl rfl⟩

/-- C9: the router built by `main` registers exactly the two routes
(GET, /health) → health handler and (GET, /books) → list handler, in that
order, and attaches the shared pool as an extension layer. -/
theorem C9_router_routes (pool : MySqlPool) :
    (makeApp pool).routes =
      [("/health", Method.GET, HandlerId.healthCheck),
       ("/books", Method.GET, HandlerId.bookList)] ∧
    (makeApp pool).layerExt = some pool :=
  ⟨rfl, rfl⟩

/-- C10: the list handler is total — the `unwrap` of the acquired connection
never panics, because the error case has already returned `Err(500)`; every
outcome is `Err(500)` or `Ok(json)`, never the panic value `none`. -/
theorem C10_no_panic (w : DbWorld) (s : RunState) :
    (book_list w s).1 =
      some (Except.error StatusCode.INTERNAL_SERVER_ERROR) ∨
    ∃ j, (book_list w s).1 = some (Except.ok j) := by
  cases hr : w.acqResult s.acquireCalls with
  | error e =>
    left
    simp [book_list, Pool.acquire, hr, Except.is_err]
  | ok c =>
    cases hq : w.queryResult c with
    | ok books =>
      right
      exact ⟨serializeBookList ⟨books⟩,
        by simp [book_list, Pool.acquire, hr, Except.is_err, unwrapOpt, hq]⟩
    | error e =>
      left
      simp [book_list, Pool.acquire, hr, Except.is_err, unwrapOpt, hq]
